import Mathlib

/-!
Shallow embedding of the orchestration engine of the node-red-mcp-server
repository, and proofs about its specified behaviour.

The embedded code comes from three source files:

* `mcp-host/index.js` — the Express host: session pool (`getMCPClient`),
  the `POST /execute` handler (request validation, connect-with-retry),
  `POST /disconnect`, and the TTL sweep.
* the `MCPClient` TypeScript class appended to the repository `Dockerfile`
  (`connect`, `disconnect`, `executePrompt`): tool-name normalization,
  the two-round model conversation, and tool-call dispatch.
* `node-red-contrib-mcp-tools/mcp-tools.js` — the Node-RED node:
  `discoverAllMCPServers`, `discoverSingleServer`, `selectBestMCPServer`.

Effectful collaborators (the model endpoint, the MCP transport, timers)
are abstracted as explicit oracle parameters: a model response is an input
value, a tool-call dispatch is a function returning `Except` (a JS
rejection is `.error`), and the observable side effects that the
specification talks about (number of model calls, dispatched tool calls,
connect attempts, delays) are recorded in explicit trace fields of the
result structures.  JavaScript `Map`s keyed by strings are represented as
insertion-ordered association lists, matching JS iteration order, and
JS `undefined` is `Option.none`.
-/

/-- A single-quote character, used to reproduce literal messages from the
source without embedding quote characters in the Lean source text. -/
def sqc : String := String.singleton (Char.ofNat 39)

/-- `charsStartWith hay needle` is true when `needle` is a prefix of `hay`. -/
def charsStartWith : List Char → List Char → Bool
  | _, [] => true
  | [], _ :: _ => false
  | c :: cs, d :: ds => c == d && charsStartWith cs ds

/-- `charsContain hay needle` is true when `needle` occurs contiguously in `hay`. -/
def charsContain : List Char → List Char → Bool
  | [], needle => charsStartWith [] needle
  | c :: t, needle => charsStartWith (c :: t) needle || charsContain t needle

/-- JS `s.includes(sub)`: substring containment. -/
def jsIncludes (s sub : String) : Bool := charsContain s.toList sub.toList

/-- JS `s.toLowerCase()`, per character (the keywords and server names the
selector compares are ASCII, where JS and per-char lowercasing agree). -/
def jsToLower (s : String) : String := String.mk (s.toList.map Char.toLower)

/-- JS truthiness of an optional string field (`undefined` and `""` are falsy). -/
def jsTruthyStr : Option String → Bool
  | none => false
  | some s => !(s == "")

/-- JS `a || b` for an optional string `a` with string fallback `b`
(`undefined` and `""` fall through to `b`). -/
def jsOrStr (a : Option String) (b : String) : String :=
  match a with
  | some s => if s == "" then b else s
  | none => b

namespace MCPHost

/-- `mcp-host/index.js` `getMCPClient`: the session-pool key,
`` `${sessionId}_${apiKey}_${serverCommand}_${serverArgs.join('_')}` ``. -/
def clientKey (sessionId apiKey serverCommand : String) (serverArgs : List String) : String :=
  sessionId ++ "_" ++ apiKey ++ "_" ++ serverCommand ++ "_" ++ String.intercalate "_" serverArgs

/-- Observable steps of the connect block of `POST /execute`
(`mcp-host/index.js`): a `client.connect` invocation, a `client.disconnect`
invocation, or a `setTimeout` wait of the given milliseconds. -/
inductive ConnectStep
  | connectAttempt
  | disconnectCall
  | delay (ms : Nat)
deriving DecidableEq, Repr

/-- Result of the connect block: whether the session ended connected, the
error text of the `500 {success:false, error}` envelope when it did not,
and the ordered trace of observable steps. -/
structure ConnectOutcome where
  connectedAfter : Bool
  error : Option String
  trace : List ConnectStep
deriving DecidableEq, Repr

/-- The error text prefix used by `POST /execute` (second handler copy):
`` `Erro ao conectar ao servidor MCP de execução: ${message}` ``. -/
def connectErrorMsg (m : String) : String :=
  "Erro ao conectar ao servidor MCP de execução: " ++ m

/-- `serverCommand.includes('npx')`: the remote/fetch launch-command pattern. -/
def containsNpx (cmd : String) : Bool := jsIncludes cmd "npx"

/-- The `if (!mcpClientInfo.connected)` block of `POST /execute`
(lines 405–435): first connect attempt; on failure, for an `npx` command,
disconnect, wait 1000 ms, and attempt connect exactly once more — a second
failure returns the failure envelope built from the retry error; for a
non-`npx` command the first failure is returned immediately.  `attempt n`
is the oracle for the n-th `client.connect` invocation (a JS rejection is
`.error message`). -/
def connectPhase (connected : Bool) (serverCommand : String)
    (attempt : Nat → Except String Unit) : ConnectOutcome :=
  if connected then ⟨true, none, []⟩
  else
    match attempt 0 with
    | Except.ok _ => ⟨true, none, [ConnectStep.connectAttempt]⟩
    | Except.error e1 =>
      if containsNpx serverCommand then
        match attempt 1 with
        | Except.ok _ =>
          ⟨true, none,
            [ConnectStep.connectAttempt, ConnectStep.disconnectCall,
             ConnectStep.delay 1000, ConnectStep.connectAttempt]⟩
        | Except.error e2 =>
          ⟨false, some (connectErrorMsg e2),
            [ConnectStep.connectAttempt, ConnectStep.disconnectCall,
             ConnectStep.delay 1000, ConnectStep.connectAttempt]⟩
      else
        ⟨false, some (connectErrorMsg e1), [ConnectStep.connectAttempt]⟩

/-- One pool entry (`mcpClients` map value), restricted to the fields the
claims mention: the `connected` flag and the `lastActivity` stamp. -/
structure ClientInfo where
  connected : Bool
  lastActivity : Nat
deriving DecidableEq, Repr

/-- The pool `mcpClients`: a JS `Map`, i.e. an insertion-ordered
association list. -/
abbrev Pool := List (String × ClientInfo)

/-- `mcpClients.get(key)` (first match; keys are unique in a JS Map). -/
def poolLookup (pool : Pool) (k : String) : Option ClientInfo :=
  (List.find? (fun p => p.1 == k) pool).map Prod.snd

/-- The pool transformation of `getMCPClient`: create the entry (with
`connected:false`) when the key is absent (JS `Map.set` appends at the
end), then stamp `lastActivity = Date.now()` on the entry. -/
def getMCPClientPool (pool : Pool) (sessionId apiKey serverCommand : String)
    (serverArgs : List String) (now : Nat) : Pool :=
  let key := clientKey sessionId apiKey serverCommand serverArgs
  let pool1 : Pool :=
    if (poolLookup pool key).isSome then pool
    else pool ++ [(key, { connected := false, lastActivity := now })]
  pool1.map (fun p => if p.1 == key then (p.1, { p.2 with lastActivity := now }) else p)

/-- The body of a `POST /execute` request, restricted to the fields the
validation prelude reads.  `none` is an absent field. -/
structure ExecRequest where
  prompt : Option String
  apiKey : Option String
  serverCommand : Option String
  serverArgs : Option (List String)
  sessionId : Option String
deriving DecidableEq, Repr

/-- What the prelude of the `POST /execute` handler produces: the early
`400` envelope error (when validation fails), the pool after the phase,
and the trace of the connect block (empty when validation fails —
`getMCPClient` is never reached). -/
structure PreludeOutcome where
  earlyError : Option String
  pool : Pool
  connectTrace : List ConnectStep
deriving DecidableEq, Repr

/-- Count of `client.connect` invocations in a connect trace. -/
def connectCountOf (t : List ConnectStep) : Nat :=
  (t.filter (fun s => s == ConnectStep.connectAttempt)).length

/-- The prelude of `POST /execute` (second handler copy, lines 295–436):
validate `prompt` then `apiKey` (JS-falsy check, each returning its `400`
envelope before the pool is consulted); otherwise apply the destructuring
defaults, run `getMCPClient`, and run the connect block on the (possibly
fresh) entry; when the block leaves the session connected, the entry's
`connected` flag is set to `true`. -/
def executePrelude (req : ExecRequest) (pool : Pool) (now : Nat)
    (attempt : Nat → Except String Unit) : PreludeOutcome :=
  if !(jsTruthyStr req.prompt) then
    { earlyError := some "Prompt é obrigatório", pool := pool, connectTrace := [] }
  else if !(jsTruthyStr req.apiKey) then
    { earlyError := some "API Key da OpenAI é obrigatória", pool := pool, connectTrace := [] }
  else
    let sessionId := (req.sessionId).getD "default"
    let apiKey := (req.apiKey).getD ""
    let serverCommand := (req.serverCommand).getD "node"
    let serverArgs :=
      (req.serverArgs).getD ["../mcp-server-demo/influxdb3_mcp_server/build/index.js"]
    let key := clientKey sessionId apiKey serverCommand serverArgs
    let pool1 := getMCPClientPool pool sessionId apiKey serverCommand serverArgs now
    let wasConnected := ((poolLookup pool1 key).map ClientInfo.connected).getD false
    let c := connectPhase wasConnected serverCommand attempt
    let pool2 : Pool :=
      if c.connectedAfter then
        pool1.map (fun p => if p.1 == key then (p.1, { p.2 with connected := true }) else p)
      else pool1
    { earlyError := c.error, pool := pool2, connectTrace := c.trace }

/-! ### Interleaving model of concurrent get-or-create

`getMCPClient` itself is synchronous, but the `connected` check and the
awaited `client.connect` in the handler are separated by a suspension
point.  The model below runs two `POST /execute` requests for the *same*
key over the shared pool entry, as explicit atomic steps of the Node.js
event loop: step one runs `getMCPClient` (entry creation), the
`connected` check, and — when not connected — starts `client.connect`
(suspending at the `await`); step two resumes after the connect resolves
and sets `connected = true`. -/

/-- Shared state for one session key: whether the pool has the entry,
its `connected` flag, and how many `client.connect` invocations happened. -/
structure PoolSim where
  hasEntry : Bool
  connected : Bool
  connectCount : Nat
deriving DecidableEq, Repr

/-- Program counter of one request's get-or-create path. -/
inductive ReqPC
  | start
  | awaitingConnect
  | done
deriving DecidableEq, Repr

/-- One atomic step of one request. -/
def reqStep (s : PoolSim) (pc : ReqPC) : PoolSim × ReqPC :=
  match pc with
  | ReqPC.start =>
    let s1 : PoolSim := { s with hasEntry := true }
    if s1.connected then (s1, ReqPC.done)
    else ({ s1 with connectCount := s1.connectCount + 1 }, ReqPC.awaitingConnect)
  | ReqPC.awaitingConnect => ({ s with connected := true }, ReqPC.done)
  | ReqPC.done => (s, ReqPC.done)

/-- Run a schedule over two requests sharing the state: each schedule item
names the request that takes its next atomic step. -/
def runSchedule : List (Fin 2) → PoolSim × (ReqPC × ReqPC) → PoolSim × (ReqPC × ReqPC)
  | [], st => st
  | i :: rest, (s, pcs) =>
    let pc := if i = 0 then pcs.1 else pcs.2
    let r := reqStep s pc
    runSchedule rest (r.1, if i = 0 then (r.2, pcs.2) else (pcs.1, r.2))

/-- `runToCompletion` runs one request alone from `start` to `done`. -/
def runToCompletion (s : PoolSim) : PoolSim :=
  let r := reqStep s ReqPC.start
  match r.2 with
  | ReqPC.awaitingConnect => (reqStep r.1 ReqPC.awaitingConnect).1
  | _ => r.1

/-- `seqRun n` runs `n` requests for the same key strictly one after the
other (no interleaving). -/
def seqRun : Nat → PoolSim → PoolSim
  | 0, s => s
  | n + 1, s => seqRun n (runToCompletion s)

/-- The initial shared state for an unseen key. -/
def initSim : PoolSim := { hasEntry := false, connected := false, connectCount := 0 }

end MCPHost

namespace MCPClient

/-- One MCP tool as returned by `listTools` (the fields `executePrompt` reads;
the input schema is forwarded opaquely and does not affect control flow). -/
structure Tool where
  name : String
  description : String
deriving DecidableEq, Repr

/-- `executePrompt`: `tool.name.replace(/[^a-zA-Z0-9_-]/g, '_')`, per character. -/
def normalizeChar (c : Char) : Char :=
  if c.isAlpha || c.isDigit || c == '_' || c == '-' then c else '_'

/-- The normalized tool name offered to the model. -/
def normalizeName (s : String) : String := String.mk (s.toList.map normalizeChar)

/-- One model-issued tool call (the OpenAI function-call format the code
reads: `toolCall.function.name` and the JSON `arguments`, kept opaque). -/
structure ToolCall where
  id : String
  name : String
  args : String
deriving DecidableEq, Repr

/-- One choice of a model response: text content and requested tool calls
(`message.tool_calls` absent is the empty list). -/
structure Choice where
  content : Option String
  tool_calls : List ToolCall
deriving DecidableEq, Repr

/-- The payload `client.callTool` resolves with.  The MCP call result carries
the server-side error flag (`isError`); `executePrompt` forwards it opaquely. -/
structure CallOutput where
  isError : Bool
  content : String
deriving DecidableEq, Repr

/-- `toolResults` entry: call-id correlation plus the raw output. -/
structure ToolResult where
  tool_call_id : String
  output : CallOutput
deriving DecidableEq, Repr

/-- The `nameMapping` map built by `forEach`/`set`: for a normalized name the
value is the name of the *last* tool in list order whose normalization equals
it (later `Map.set` calls overwrite earlier ones). -/
def nameMappingGet (tools : List Tool) (n : String) : Option String :=
  (tools.reverse.find? (fun t => normalizeName t.name == n)).map Tool.name

/-- Dispatch the model-issued calls in order, as the `Promise.all` loop does:
each call is resolved to its original name via
`nameMapping.get(toolName) || toolName` and sent to the transport oracle
`call`.  A rejection (`Except.error`) aborts collection — it propagates to
the surrounding `try`.  The first component records every `(originalName,
args)` pair actually sent to the transport, up to and including a failing one. -/
def dispatchCalls (tools : List Tool) (call : String → String → Except String CallOutput) :
    List ToolCall → List (String × String) × Except String (List ToolResult)
  | [] => ([], Except.ok [])
  | tc :: rest =>
    let orig := jsOrStr (nameMappingGet tools tc.name) tc.name
    match call orig tc.args with
    | Except.error e => ([(orig, tc.args)], Except.error e)
    | Except.ok out =>
      let r := dispatchCalls tools call rest
      ((orig, tc.args) :: r.1,
        match r.2 with
        | Except.error e => Except.error e
        | Except.ok rs => Except.ok ({ tool_call_id := tc.id, output := out } :: rs))

/-- The envelope `executePrompt` returns, extended with the trace fields
`modelCalls` (number of chat-completion requests issued) and `dispatched`
(tool calls sent to the transport).  The `messages` array is omitted: the
claims under verification do not mention it. -/
structure ExecResult where
  success : Bool
  response : Option String
  error : Option String
  toolsUsed : List CallOutput
  modelCalls : Nat
  dispatched : List (String × String)
deriving DecidableEq, Repr

/-- `MCPClient.executePrompt`, with the effectful collaborators as oracles:
`round1` is the first chat-completion response (its `choices`), `call` is
`client.callTool`, `round2` is the content of the follow-up completion
(consulted only when tool results exist).  A rejection from `callTool`
reaches the surrounding `catch`, which returns the failure envelope
`{success:false, error, response:null}`.  Reading `choices[0]` of an empty
`choices` array throws a `TypeError`, likewise caught. -/
def executePrompt (tools : List Tool) (round1 : List Choice)
    (call : String → String → Except String CallOutput) (round2 : String) : ExecResult :=
  let calls := (round1.map Choice.tool_calls).flatten
  let d := dispatchCalls tools call calls
  match d.2 with
  | Except.error e =>
    { success := false, response := none, error := some e,
      toolsUsed := [], modelCalls := 1, dispatched := d.1 }
  | Except.ok toolResults =>
    if 0 < toolResults.length then
      { success := true, response := some round2, error := none,
        toolsUsed := toolResults.map ToolResult.output, modelCalls := 2, dispatched := d.1 }
    else
      match round1.head? with
      | some c0 =>
        { success := true, response := c0.content, error := none,
          toolsUsed := [], modelCalls := 1, dispatched := d.1 }
      | none =>
        { success := false, response := none,
          error := some ("Cannot read properties of undefined (reading " ++ sqc ++ "message" ++ sqc ++ ")"),
          toolsUsed := [], modelCalls := 1, dispatched := d.1 }

end MCPClient

namespace MCPTools

/-- One server descriptor from the `mcpServers` configuration: launch
command and argument list (environment overrides are forwarded opaquely
and play no role in the embedded control flow). -/
structure ServerConfig where
  command : String
  args : List String
deriving DecidableEq, Repr

/-- What one resolved `discoverSingleServer` promise carries, before the
`config` field is merged in: the fields built from the `/test-connection`
response (`available`, counts, optional `error`/`message`,
`validForExecution`, `warning`).  JS `undefined` fields are `none`. -/
structure ProbeOutcome where
  available : Bool
  toolsCount : Nat
  resourcesCount : Nat
  error : Option String
  message : Option String
  validForExecution : Option Bool
  warning : Option String
deriving DecidableEq, Repr

/-- One entry of the aggregate discovery result: the server config plus the
probe fields (`{config, ...discoveryResult}` for a fulfilled probe, the
`Discovery failed` record for a rejected one). -/
structure DiscoveryEntry where
  config : ServerConfig
  available : Bool
  toolsCount : Nat
  resourcesCount : Nat
  error : Option String
  message : Option String
  validForExecution : Option Bool
  warning : Option String
deriving DecidableEq, Repr

/-- How `discoverAllMCPServers` turns one settled promise into the entry for
its server: a fulfilled probe contributes `{config, ...result.value}`; a
rejected probe contributes `{config, available:false, error:'Discovery
failed', message: reason.message}`. -/
def settleEntry (cfg : ServerConfig) (r : Except String ProbeOutcome) : DiscoveryEntry :=
  match r with
  | Except.ok o =>
    { config := cfg, available := o.available, toolsCount := o.toolsCount,
      resourcesCount := o.resourcesCount, error := o.error, message := o.message,
      validForExecution := o.validForExecution, warning := o.warning }
  | Except.error msg =>
    { config := cfg, available := false, toolsCount := 0, resourcesCount := 0,
      error := some "Discovery failed", message := some msg,
      validForExecution := none, warning := none }

/-- `discoverAllMCPServers`: one `discoverSingleServer` promise per
configuration entry, `Promise.allSettled`, then one result entry per input
server in input order.  `probe` abstracts `discoverSingleServer`
(a JS rejection is `.error reason`); the input object is its ordered
entry list. -/
def discoverAllMCPServers (servers : List (String × ServerConfig))
    (probe : String → ServerConfig → Except String ProbeOutcome) :
    List (String × DiscoveryEntry) :=
  servers.map (fun p => (p.1, settleEntry p.2 (probe p.1 p.2)))

/-- The ordered `taskKeywords` table of `selectBestMCPServer`. -/
def taskKeywords : List (String × List String) :=
  [("web_search", ["search", "buscar", "encontrar", "notícias", "news", "futebol", "esportes"]),
   ("file_management", ["arquivo", "file", "documento", "drive", "google", "upload", "download"]),
   ("database", ["banco", "database", "query", "sql", "dados"]),
   ("code_analysis", ["código", "code", "análise", "review", "debug"]),
   ("general", ["geral", "general", "ajuda", "help", "o que você pode fazer"])]

/-- The keyword classification loop: the first task type one of whose
keywords occurs in the lowercased prompt; `general` when none matches. -/
def detectTask (promptLower : String) : String :=
  match taskKeywords.find? (fun p => p.2.any (fun k => jsIncludes promptLower k)) with
  | some p => p.1
  | none => "general"

/-- The `serverPreferences` table. -/
def serverPreferences : List (String × List String) :=
  [("web_search", ["exa", "smithery", "search"]),
   ("file_management", ["gdrive", "google", "file"]),
   ("database", ["database", "db"]),
   ("code_analysis", ["code", "analysis", "review"]),
   ("general", ["default", "general"])]

/-- `serverPreferences[detectedTask] || ['default']`. -/
def preferredFor (task : String) : List String :=
  match serverPreferences.find? (fun p => p.1 == task) with
  | some p => p.2
  | none => ["default"]

/-- The selection condition of the preferred-server loop:
`(serverName.toLowerCase().includes(preferredServer) || preferredServer ===
'default' && serverName === 'default') && (serverInfo.available &&
(serverInfo.validForExecution !== false))`. -/
def preferredMatch (pref serverName : String) (info : DiscoveryEntry) : Bool :=
  (jsIncludes (jsToLower serverName) pref || (pref == "default" && serverName == "default"))
    && (info.available && !(info.validForExecution == some false))

/-- The availability condition of the first-available loop. -/
def availableValid (info : DiscoveryEntry) : Bool :=
  info.available && !(info.validForExecution == some false)

/-- What `selectBestMCPServer` returns to its caller.  `serverName` and
`serverConfig` are `none` exactly when the JS values are `undefined`
(possible only for an empty configuration object).  The `allServers`
passthrough field is omitted: the claims under verification concern
`serverName`, `serverConfig` and `reason`. -/
structure Selection where
  serverName : Option String
  serverConfig : Option ServerConfig
  reason : String
deriving DecidableEq, Repr

/-- `selectBestMCPServer(prompt, mcpServersConfig, serverEnvsObject,
existingDiscovery)` in the mode the node always uses (line 570 of
`mcp-tools.js`): an existing discovery result map is supplied, so no fresh
discovery runs.  The function body performs no other effectful operation
(logging aside), so it is embedded directly as a function of `(prompt,
config, discovery)`; the trailing JS `catch` is unreachable in this mode. -/
def selectBestMCPServer (prompt : String) (cfg : List (String × ServerConfig))
    (discovery : List (String × DiscoveryEntry)) : Selection :=
  match cfg with
  | [] =>
    { serverName := none, serverConfig := none,
      reason := "Fallback to first server (may not be available): undefined" }
  | (n0, c0) :: rest =>
    if rest.isEmpty then
      { serverName := some n0, serverConfig := some c0,
        reason := "Single server available: " ++ n0 }
    else
      let promptLower := jsToLower prompt
      let detectedTask := detectTask promptLower
      let preferredServers := preferredFor detectedTask
      match preferredServers.findSome?
          (fun pref => discovery.find? (fun p => preferredMatch pref p.1 p.2)) with
      | some p =>
        { serverName := some p.1, serverConfig := some p.2.config,
          reason := "Selected based on task type " ++ sqc ++ detectedTask ++ sqc
            ++ " and availability" }
      | none =>
        match discovery.find? (fun p => availableValid p.2) with
        | some p =>
          { serverName := some p.1, serverConfig := some p.2.config,
            reason := "First available server: " ++ p.1 }
        | none =>
          { serverName := some n0, serverConfig := some c0,
            reason := "Fallback to first server (may not be available): " ++ n0 }

end MCPTools

/-! ## Shared lemmas -/

/-- Dispatching with a transport that always resolves collects one result per
model-issued call, in order, with the original (denormalized) names. -/
theorem dispatchCalls_all_ok (tools : List MCPClient.Tool)
    (f : String → String → MCPClient.CallOutput) :
    ∀ calls : List MCPClient.ToolCall,
      MCPClient.dispatchCalls tools (fun n a => Except.ok (f n a)) calls
        = (calls.map (fun tc =>
              (jsOrStr (MCPClient.nameMappingGet tools tc.name) tc.name, tc.args)),
           Except.ok (calls.map (fun tc =>
              { tool_call_id := tc.id,
                output := f (jsOrStr (MCPClient.nameMappingGet tools tc.name) tc.name) tc.args }))) := by
  intro calls
  induction calls with
  | nil => rfl
  | cons tc rest ih => simp [MCPClient.dispatchCalls, ih]

/-- The aggregate discovery result has one entry per input server. -/
theorem discoverAll_length (servers : List (String × MCPTools.ServerConfig))
    (probe : String → MCPTools.ServerConfig → Except String MCPTools.ProbeOutcome) :
    (MCPTools.discoverAllMCPServers servers probe).length = servers.length := by
  simp [MCPTools.discoverAllMCPServers]

/-- A completed request leaves the shared pool-simulation state connected,
so later sequential requests take the fast path and never reconnect. -/
theorem seqRun_of_connected (m : Nat) :
    ∀ s : MCPHost.PoolSim, s.connected = true →
      (MCPHost.seqRun m s).connectCount = s.connectCount ∧
        (MCPHost.seqRun m s).connected = true := by
  induction m with
  | zero => intro s h; exact ⟨rfl, h⟩
  | succ k ih =>
    intro s h
    have hrc : MCPHost.runToCompletion s = { s with hasEntry := true } := by
      simp [MCPHost.runToCompletion, MCPHost.reqStep, h]
    rw [MCPHost.seqRun, hrc]
    exact ih _ h

/-! ## Claims -/

/-- Claim C1, counterexample: a dispatched tool call whose dispatch fails
(the transport rejects with message `boom`) is not captured as a per-call
Result in `toolsUsed`; `executePrompt` escalates it to a request-level
failure envelope with `success:false` and the error message, contradicting
the claim that `execute` still returns `success:true`. -/
theorem C1_counterexample :
    (MCPClient.executePrompt [⟨"tool_a", "d"⟩] [⟨none, [⟨"id1", "tool_a", "x"⟩]⟩]
        (fun _ _ => Except.error "boom") "final")
      = { success := false, response := none, error := some "boom",
          toolsUsed := [], modelCalls := 1, dispatched := [("tool_a", "x")] } := by
  decide

/-- Claim C1 (amended): when every dispatched tool call *resolves* — even
with the server-side error flag set in the payload — each result is captured
as a per-call Result inside `toolsUsed` and `executePrompt` returns
`success:true`; only a dispatch that throws is escalated to a request-level
failure. -/
theorem C1_tool_error_not_escalated (tools : List MCPClient.Tool)
    (round1 : List MCPClient.Choice) (f : String → String → MCPClient.CallOutput)
    (round2 : String) (hne : round1 ≠ []) :
    (MCPClient.executePrompt tools round1 (fun n a => Except.ok (f n a)) round2).success
        = true ∧
      (MCPClient.executePrompt tools round1 (fun n a => Except.ok (f n a)) round2).toolsUsed
        = ((round1.map MCPClient.Choice.tool_calls).flatten).map (fun tc =>
            f (jsOrStr (MCPClient.nameMappingGet tools tc.name) tc.name) tc.args) := by
  have hd := dispatchCalls_all_ok tools f ((round1.map MCPClient.Choice.tool_calls).flatten)
  rcases hcalls : (round1.map MCPClient.Choice.tool_calls).flatten with _ | ⟨tc, rest⟩
  · rw [hcalls] at hd
    rcases hh : round1.head? with _ | c0
    · exact absurd (List.head?_eq_none_iff.mp hh) hne
    · simp [MCPClient.executePrompt, hcalls, hd, hh]
  · rw [hcalls] at hd
    simp [MCPClient.executePrompt, hcalls, hd]

/-- Claim C1, witness for the amended theorem: a single tool call resolving
with an error-flagged payload is embedded in `toolsUsed` and the envelope
still has `success:true`. -/
theorem C1_witness :
    (MCPClient.executePrompt [⟨"tool_a", "d"⟩] [⟨none, [⟨"id1", "tool_a", "x"⟩]⟩]
        (fun n a => Except.ok ((fun _ _ => ({ isError := true, content := "err" }
          : MCPClient.CallOutput)) n a)) "final").success = true ∧
      (MCPClient.executePrompt [⟨"tool_a", "d"⟩] [⟨none, [⟨"id1", "tool_a", "x"⟩]⟩]
        (fun n a => Except.ok ((fun _ _ => ({ isError := true, content := "err" }
          : MCPClient.CallOutput)) n a)) "final").toolsUsed
        = (([⟨none, [⟨"id1", "tool_a", "x"⟩]⟩] : List MCPClient.Choice).map
            MCPClient.Choice.tool_calls).flatten.map (fun tc =>
              (fun _ _ => ({ isError := true, content := "err" } : MCPClient.CallOutput))
                (jsOrStr (MCPClient.nameMappingGet [⟨"tool_a", "d"⟩] tc.name) tc.name) tc.args) :=
  C1_tool_error_not_escalated [⟨"tool_a", "d"⟩] [⟨none, [⟨"id1", "tool_a", "x"⟩]⟩]
    (fun _ _ => { isError := true, content := "err" }) "final" (by decide)

/-- Claim C2, counterexample: two distinct `(sessionId, apiKey,
serverCommand, serverArgs)` tuples derive the same pool key, because the
components are glued with `_` and may themselves contain `_`. -/
theorem C2_counterexample :
    MCPHost.clientKey "a" "b_c" "d" [] = MCPHost.clientKey "a_b" "c" "d" [] ∧
      (("a", "b_c") : String × String) ≠ ("a_b", "c") := by
  decide

/-- Claim C2 (amended): the key derivation of `getMCPClient` is
deterministic — equal tuples always derive equal keys — but it is not
injective: distinct tuples can collide. -/
theorem C2_key_deterministic_not_injective :
    (∀ s1 s2 a1 a2 c1 c2 : String, ∀ l1 l2 : List String,
        s1 = s2 → a1 = a2 → c1 = c2 → l1 = l2 →
        MCPHost.clientKey s1 a1 c1 l1 = MCPHost.clientKey s2 a2 c2 l2) ∧
      ∃ s1 s2 a1 a2 c1 c2 : String, ∃ l1 l2 : List String,
        (s1, a1, c1, l1) ≠ (s2, a2, c2, l2) ∧
          MCPHost.clientKey s1 a1 c1 l1 = MCPHost.clientKey s2 a2 c2 l2 := by
  constructor
  · intro s1 s2 a1 a2 c1 c2 l1 l2 hs ha hc hl
    rw [hs, ha, hc, hl]
  · exact ⟨"a", "a_b", "b_c", "c", "d", "d", [], [], by decide, by decide⟩

/-- Claim C2, witness: the deterministic half applied at a concrete tuple. -/
theorem C2_witness :
    MCPHost.clientKey "s" "a" "c" ["g"] = MCPHost.clientKey "s" "a" "c" ["g"] :=
  C2_key_deterministic_not_injective.1 "s" "s" "a" "a" "c" "c" ["g"] ["g"] rfl rfl rfl rfl

/-- Claim C3: `discoverAllMCPServers` over K input server descriptors
returns exactly one entry per descriptor (K entries, names and order
preserved); a rejected per-server probe only marks its own entry
unavailable (`error:'Discovery failed'` with the reason message) and never
makes the aggregate call raise; and two probe functions agreeing on every
server other than j produce aggregates agreeing on every entry other
than j (isolation). -/
theorem C3_discovery_settles_all (servers : List (String × MCPTools.ServerConfig))
    (probe probe2 : String → MCPTools.ServerConfig → Except String MCPTools.ProbeOutcome)
    (j : Nat)
    (hagree : ∀ i, i ≠ j → ∀ h : i < servers.length,
      probe (servers.get ⟨i, h⟩).1 (servers.get ⟨i, h⟩).2
        = probe2 (servers.get ⟨i, h⟩).1 (servers.get ⟨i, h⟩).2) :
    (MCPTools.discoverAllMCPServers servers probe).length = servers.length ∧
      (∀ i (h : i < servers.length)
          (h2 : i < (MCPTools.discoverAllMCPServers servers probe).length),
        ((MCPTools.discoverAllMCPServers servers probe).get ⟨i, h2⟩).1
          = (servers.get ⟨i, h⟩).1) ∧
      (∀ i (h : i < servers.length)
          (h2 : i < (MCPTools.discoverAllMCPServers servers probe).length) (m : String),
        probe (servers.get ⟨i, h⟩).1 (servers.get ⟨i, h⟩).2 = Except.error m →
          ((MCPTools.discoverAllMCPServers servers probe).get ⟨i, h2⟩).2.available = false ∧
          ((MCPTools.discoverAllMCPServers servers probe).get ⟨i, h2⟩).2.error
            = some "Discovery failed" ∧
          ((MCPTools.discoverAllMCPServers servers probe).get ⟨i, h2⟩).2.message = some m) ∧
      (∀ i, i ≠ j → ∀ h : i < servers.length,
        ∀ h2 : i < (MCPTools.discoverAllMCPServers servers probe).length,
        ∀ h3 : i < (MCPTools.discoverAllMCPServers servers probe2).length,
        (MCPTools.discoverAllMCPServers servers probe).get ⟨i, h2⟩
          = (MCPTools.discoverAllMCPServers servers probe2).get ⟨i, h3⟩) := by
  refine ⟨discoverAll_length servers probe, ?_, ?_, ?_⟩
  · intro i h h2
    simp [MCPTools.discoverAllMCPServers]
  · intro i h h2 m hm
    simp only [List.get_eq_getElem] at hm
    simp [MCPTools.discoverAllMCPServers, MCPTools.settleEntry, hm]
  · intro i hne h h2 h3
    have hag := hagree i hne h
    simp only [List.get_eq_getElem] at hag
    simp only [MCPTools.discoverAllMCPServers, List.get_eq_getElem, List.getElem_map]
    rw [hag]

/-- Claim C3, witness: two servers, probes that differ only at index 1
(where one rejects); the aggregate has 2 entries, names preserved, the
rejected server is marked unavailable, and entry 0 is identical under both
probes. -/
theorem C3_witness :
    (MCPTools.discoverAllMCPServers
        [("a", ⟨"node", []⟩), ("b", ⟨"npx", []⟩)]
        (fun n _ => if n = "a" then Except.ok ⟨true, 2, 1, none, none, none, none⟩
          else Except.error "crash")).length
      = ([("a", (⟨"node", []⟩ : MCPTools.ServerConfig)), ("b", ⟨"npx", []⟩)]).length :=
  (C3_discovery_settles_all [("a", ⟨"node", []⟩), ("b", ⟨"npx", []⟩)]
    (fun n _ => if n = "a" then Except.ok ⟨true, 2, 1, none, none, none, none⟩
      else Except.error "crash")
    (fun n _ => if n = "a" then Except.ok ⟨true, 2, 1, none, none, none, none⟩
      else Except.ok ⟨false, 0, 0, some "Connection error", none, none, none⟩)
    1
    (by
      intro i hne h
      have h2 : i < 2 := by simpa using h
      interval_cases i
      · rfl
      · exact absurd rfl hne)).1

/-- Claim C4: when the round-1 model response issues zero tool calls,
`executePrompt` returns the model's direct text content with
`toolsUsed = []`, issues exactly one model call (no round-2 follow-up),
and dispatches nothing to the transport. -/
theorem C4_zero_tool_calls_single_round (tools : List MCPClient.Tool)
    (round1 : List MCPClient.Choice)
    (call : String → String → Except String MCPClient.CallOutput) (round2 : String)
    (c0 : MCPClient.Choice) (h0 : round1.head? = some c0)
    (hz : ∀ c ∈ round1, c.tool_calls = []) :
    MCPClient.executePrompt tools round1 call round2
      = { success := true, response := c0.content, error := none, toolsUsed := [],
          modelCalls := 1, dispatched := [] } := by
  have hcalls : (round1.map MCPClient.Choice.tool_calls).flatten = [] := by
    rw [List.flatten_eq_nil_iff]
    intro l hl
    rcases List.mem_map.mp hl with ⟨c, hc, rfl⟩
    exact hz c hc
  simp [MCPClient.executePrompt, hcalls, MCPClient.dispatchCalls, h0]

/-- Claim C4, witness: a single choice with text `hi` and no tool calls. -/
theorem C4_witness :
    MCPClient.executePrompt [⟨"tool_a", "d"⟩] [⟨some "hi", []⟩]
        (fun _ _ => Except.error "never") "f2"
      = { success := true, response := some "hi", error := none, toolsUsed := [],
          modelCalls := 1, dispatched := [] } :=
  C4_zero_tool_calls_single_round [⟨"tool_a", "d"⟩] [⟨some "hi", []⟩]
    (fun _ _ => Except.error "never") "f2" ⟨some "hi", []⟩ rfl (by decide)

/-- Claim C5: `selectBestMCPServer` (with the discovery map supplied, the
mode the node always uses) is a pure function of `(prompt, configuration,
discovery)`: two calls with identical inputs return identical selections —
same `serverName`, same `serverConfig`, same `reason`. -/
theorem C5_selector_deterministic (p1 p2 : String)
    (cfg1 cfg2 : List (String × MCPTools.ServerConfig))
    (d1 d2 : List (String × MCPTools.DiscoveryEntry))
    (hp : p1 = p2) (hc : cfg1 = cfg2) (hd : d1 = d2) :
    MCPTools.selectBestMCPServer p1 cfg1 d1 = MCPTools.selectBestMCPServer p2 cfg2 d2 := by
  rw [hp, hc, hd]

/-- Claim C5, witness: two textually separate but equal calls coincide. -/
theorem C5_witness :
    MCPTools.selectBestMCPServer "search x"
        [("alpha", ⟨"node", []⟩), ("exa", ⟨"npx", []⟩)]
        [("alpha", ⟨⟨"node", []⟩, true, 1, 0, none, none, none, none⟩),
         ("exa", ⟨⟨"npx", []⟩, true, 3, 0, none, none, none, none⟩)]
      = MCPTools.selectBestMCPServer "search x"
        [("alpha", ⟨"node", []⟩), ("exa", ⟨"npx", []⟩)]
        [("alpha", ⟨⟨"node", []⟩, true, 1, 0, none, none, none, none⟩),
         ("exa", ⟨⟨"npx", []⟩, true, 3, 0, none, none, none, none⟩)] :=
  C5_selector_deterministic "search x" "search x"
    [("alpha", ⟨"node", []⟩), ("exa", ⟨"npx", []⟩)]
    [("alpha", ⟨"node", []⟩), ("exa", ⟨"npx", []⟩)]
    [("alpha", ⟨⟨"node", []⟩, true, 1, 0, none, none, none, none⟩),
     ("exa", ⟨⟨"npx", []⟩, true, 3, 0, none, none, none, none⟩)]
    [("alpha", ⟨⟨"node", []⟩, true, 1, 0, none, none, none, none⟩),
     ("exa", ⟨⟨"npx", []⟩, true, 3, 0, none, none, none, none⟩)]
    rfl rfl rfl

/-- Claim C6: connection retry is attempted only for a launch command
containing `npx`: there, a failed first connect is followed by a
disconnect, a fixed 1000 ms delay, and exactly one more connect attempt —
a second failure yields the failure envelope carrying the retry error's
message, a second success leaves the session connected; for a command not
containing `npx` the first failure is reported immediately with no retry,
no disconnect and no delay. -/
theorem C6_retry_policy (cmd : String) (attempt : Nat → Except String Unit) (e1 e2 : String) :
    (MCPHost.containsNpx cmd = true → attempt 0 = Except.error e1 →
      attempt 1 = Except.error e2 →
      MCPHost.connectPhase false cmd attempt
        = ⟨false, some (MCPHost.connectErrorMsg e2),
            [MCPHost.ConnectStep.connectAttempt, MCPHost.ConnectStep.disconnectCall,
             MCPHost.ConnectStep.delay 1000, MCPHost.ConnectStep.connectAttempt]⟩) ∧
    (MCPHost.containsNpx cmd = true → attempt 0 = Except.error e1 →
      attempt 1 = Except.ok () →
      MCPHost.connectPhase false cmd attempt
        = ⟨true, none,
            [MCPHost.ConnectStep.connectAttempt, MCPHost.ConnectStep.disconnectCall,
             MCPHost.ConnectStep.delay 1000, MCPHost.ConnectStep.connectAttempt]⟩) ∧
    (MCPHost.containsNpx cmd = false → attempt 0 = Except.error e1 →
      MCPHost.connectPhase false cmd attempt
        = ⟨false, some (MCPHost.connectErrorMsg e1),
            [MCPHost.ConnectStep.connectAttempt]⟩) := by
  refine ⟨?_, ?_, ?_⟩
  · intro hnpx h0 h1
    simp [MCPHost.connectPhase, hnpx, h0, h1]
  · intro hnpx h0 h1
    simp [MCPHost.connectPhase, hnpx, h0, h1]
  · intro hnpx h0
    simp [MCPHost.connectPhase, hnpx, h0]

/-- Claim C6, witness: an `npx` command whose connect fails twice produces
the failure envelope with the retry error message after exactly two
attempts. -/
theorem C6_witness :
    MCPHost.connectPhase false "npx -y some-remote-server"
        (fun n => if n = 0 then Except.error "first" else Except.error "second")
      = ⟨false, some (MCPHost.connectErrorMsg "second"),
          [MCPHost.ConnectStep.connectAttempt, MCPHost.ConnectStep.disconnectCall,
           MCPHost.ConnectStep.delay 1000, MCPHost.ConnectStep.connectAttempt]⟩ :=
  (C6_retry_policy "npx -y some-remote-server"
    (fun n => if n = 0 then Except.error "first" else Except.error "second")
    "first" "second").1 (by decide) rfl rfl

/-- Claim C7, counterexample: the tool names `a.b` and `a b` are distinct
yet normalize to the same `a_b`; `executePrompt` does not detect the
collision or report a configuration error — it proceeds, silently
resolving the model's call to `a_b` to the *last* colliding tool (`a b`)
and returning a `success:true` envelope. -/
theorem C7_counterexample :
    MCPClient.normalizeName "a.b" = MCPClient.normalizeName "a b" ∧
      ("a.b" : String) ≠ "a b" ∧
      MCPClient.executePrompt [⟨"a.b", "d1"⟩, ⟨"a b", "d2"⟩]
          [⟨none, [⟨"c1", "a_b", "y"⟩]⟩] (fun _ _ => Except.ok ⟨false, "r"⟩) "fin"
        = { success := true, response := some "fin", error := none,
            toolsUsed := [⟨false, "r"⟩], modelCalls := 2,
            dispatched := [("a b", "y")] } := by
  decide

/-- Claim C7 (amended): a normalization collision is not detected and not
reported: with two distinct tools whose names normalize identically,
`executePrompt` proceeds, and a model call to the shared normalized name is
silently dispatched to the *last* tool with that normalization (the
`Map.set` overwrite), never to the earlier one. -/
theorem C7_collision_not_detected (t1 t2 : MCPClient.Tool) (id args round2 : String)
    (out : MCPClient.CallOutput)
    (hcol : MCPClient.normalizeName t1.name = MCPClient.normalizeName t2.name)
    (hne : t2.name ≠ "") (hdist : t1.name ≠ t2.name) :
    MCPClient.executePrompt [t1, t2] [⟨none, [⟨id, MCPClient.normalizeName t2.name, args⟩]⟩]
        (fun _ _ => Except.ok out) round2
      = { success := true, response := some round2, error := none, toolsUsed := [out],
          modelCalls := 2, dispatched := [(t2.name, args)] } ∧
      (t1.name, args) ∉
        (MCPClient.executePrompt [t1, t2]
          [⟨none, [⟨id, MCPClient.normalizeName t2.name, args⟩]⟩]
          (fun _ _ => Except.ok out) round2).dispatched := by
  have hmap : MCPClient.nameMappingGet [t1, t2] (MCPClient.normalizeName t2.name)
      = some t2.name := by
    simp [MCPClient.nameMappingGet, List.find?]
  have horig : jsOrStr (MCPClient.nameMappingGet [t1, t2] (MCPClient.normalizeName t2.name))
      (MCPClient.normalizeName t2.name) = t2.name := by
    rw [hmap]
    simp [jsOrStr, hne]
  constructor
  · simp [MCPClient.executePrompt, MCPClient.dispatchCalls, horig]
  · simp [MCPClient.executePrompt, MCPClient.dispatchCalls, horig, hdist]

/-- Claim C7, witness for the amended theorem: the colliding pair
`a.b` / `a b` with a call to `a_b` dispatches to `a b` only. -/
theorem C7_witness :
    MCPClient.executePrompt [⟨"a.b", "d1"⟩, ⟨"a b", "d2"⟩]
        [⟨none, [⟨"c1", MCPClient.normalizeName "a b", "y"⟩]⟩]
        (fun _ _ => Except.ok ⟨false, "r"⟩) "fin"
      = { success := true, response := some "fin", error := none,
          toolsUsed := [⟨false, "r"⟩], modelCalls := 2,
          dispatched := [("a b", "y")] } ∧
      (("a.b" : String), "y") ∉
        (MCPClient.executePrompt [⟨"a.b", "d1"⟩, ⟨"a b", "d2"⟩]
          [⟨none, [⟨"c1", MCPClient.normalizeName "a b", "y"⟩]⟩]
          (fun _ _ => Except.ok ⟨false, "r"⟩) "fin").dispatched :=
  C7_collision_not_detected ⟨"a.b", "d1"⟩ ⟨"a b", "d2"⟩ "c1" "y" "fin" ⟨false, "r"⟩
    (by decide) (by decide) (by decide)

/-- Claim C8, counterexample: two concurrent first-requests for the same
unseen key, interleaved at the `await client.connect` suspension point
(schedule: request 0 starts, request 1 starts, both connects resolve),
drive the underlying connect invocation count to 2, not 1 — the
get-or-create path has no per-key creation guard, so the second caller
does not reuse the first caller's in-flight connection. -/
theorem C8_counterexample :
    (MCPHost.runSchedule [0, 1, 0, 1]
        (MCPHost.initSim, (MCPHost.ReqPC.start, MCPHost.ReqPC.start))).1.connectCount = 2 ∧
      (MCPHost.runSchedule [0, 1, 0, 1]
        (MCPHost.initSim, (MCPHost.ReqPC.start, MCPHost.ReqPC.start))).2
        = (MCPHost.ReqPC.done, MCPHost.ReqPC.done) := by
  decide

/-- Claim C8 (amended): the at-most-one-connect guarantee holds only for
non-overlapping requests: any number `n ≥ 1` of requests for the same key
executed strictly sequentially invokes connect exactly once (each later
request observes `connected` and takes the fast path); concurrent
interleaved first-requests can each invoke connect. -/
theorem C8_sequential_single_connect (n : Nat) (h : 1 ≤ n) :
    (MCPHost.seqRun n MCPHost.initSim).connectCount = 1 ∧
      (MCPHost.seqRun n MCPHost.initSim).connected = true := by
  obtain ⟨k, rfl⟩ : ∃ k, n = k + 1 := ⟨n - 1, by omega⟩
  have h1 : MCPHost.runToCompletion MCPHost.initSim
      = { hasEntry := true, connected := true, connectCount := 1 } := by decide
  rw [MCPHost.seqRun, h1]
  exact seqRun_of_connected k _ rfl

/-- Claim C8, witness: three sequential requests yield exactly one connect. -/
theorem C8_witness :
    (MCPHost.seqRun 3 MCPHost.initSim).connectCount = 1 ∧
      (MCPHost.seqRun 3 MCPHost.initSim).connected = true :=
  C8_sequential_single_connect 3 (by decide)

/-- Claim C9, counterexample: with two configured servers and a
discovery-result map containing an available entry under a name that is
*not* a configured server, `selectBestMCPServer` returns that unconfigured
name: its loops iterate over the discovery map, not the configuration, so
for an arbitrary discovery map the selection need not name a configured
server. -/
theorem C9_counterexample :
    (MCPTools.selectBestMCPServer "search something"
        [("alpha", ⟨"node", []⟩), ("beta", ⟨"node", []⟩)]
        [("exa-remote", ⟨⟨"npx", []⟩, true, 0, 0, none, none, none, none⟩)]).serverName
      = some "exa-remote" ∧
      "exa-remote" ∉
        ([("alpha", (⟨"node", []⟩ : MCPTools.ServerConfig)),
          ("beta", ⟨"node", []⟩)].map Prod.fst) := by
  decide

/-- Claim C9 (amended): for every non-empty configuration, every prompt,
and every discovery map *whose entries are all under configured server
names* (as the maps produced by `discoverAllMCPServers` are), the selector
totally returns a selection naming some configured server together with a
reason — in particular it never fails to select, even when every server is
unavailable (fallback to the first configured server). -/
theorem C9_selector_total_on_config (prompt : String)
    (cfg : List (String × MCPTools.ServerConfig))
    (discovery : List (String × MCPTools.DiscoveryEntry))
    (hne : cfg ≠ [])
    (hkeys : ∀ p ∈ discovery, p.1 ∈ cfg.map Prod.fst) :
    ∃ nm, (MCPTools.selectBestMCPServer prompt cfg discovery).serverName = some nm ∧
      nm ∈ cfg.map Prod.fst := by
  match cfg, hne with
  | (n0, c0) :: rest, _ =>
    unfold MCPTools.selectBestMCPServer
    cases hr : rest.isEmpty with
    | true => exact ⟨n0, by simp [hr], by simp⟩
    | false =>
      cases hfs : (MCPTools.preferredFor (MCPTools.detectTask (jsToLower prompt))).findSome?
          (fun pref => discovery.find? (fun p => MCPTools.preferredMatch pref p.1 p.2)) with
      | some p =>
        obtain ⟨pref, hpref, hfind⟩ := List.exists_of_findSome?_eq_some hfs
        exact ⟨p.1, by simp [hr, hfs], hkeys p (List.mem_of_find?_eq_some hfind)⟩
      | none =>
        cases hfa : discovery.find? (fun p => MCPTools.availableValid p.2) with
        | some p =>
          exact ⟨p.1, by simp [hr, hfs, hfa], hkeys p (List.mem_of_find?_eq_some hfa)⟩
        | none =>
          exact ⟨n0, by simp [hr, hfs, hfa], by simp⟩

/-- Claim C9, witness for the amended theorem: two configured servers, both
discovered unavailable — a configured name is still selected. -/
theorem C9_witness :
    ∃ nm, (MCPTools.selectBestMCPServer "hello"
        [("alpha", ⟨"node", []⟩), ("beta", ⟨"node", []⟩)]
        [("alpha", ⟨⟨"node", []⟩, false, 0, 0, some "x", none, none, none⟩),
         ("beta", ⟨⟨"node", []⟩, false, 0, 0, some "x", none, none, none⟩)]).serverName
      = some nm ∧
      nm ∈ ([("alpha", (⟨"node", []⟩ : MCPTools.ServerConfig)),
             ("beta", ⟨"node", []⟩)].map Prod.fst) :=
  C9_selector_total_on_config "hello"
    [("alpha", ⟨"node", []⟩), ("beta", ⟨"node", []⟩)]
    [("alpha", ⟨⟨"node", []⟩, false, 0, 0, some "x", none, none, none⟩),
     ("beta", ⟨⟨"node", []⟩, false, 0, 0, some "x", none, none, none⟩)]
    (by decide) (by decide)

/-- Claim C10: a `POST /execute` request whose `prompt` field is missing,
or whose `apiKey` field is missing, is answered with a `{success:false,
error}` envelope before the session pool is consulted: the pool is
returned completely unchanged (no entry created, no `lastActivity`
stamped) and the connect trace is empty (no connect attempted). -/
theorem C10_validation_leaves_pool_unchanged (req : MCPHost.ExecRequest)
    (pool : MCPHost.Pool) (now : Nat) (attempt : Nat → Except String Unit) :
    (req.prompt = none →
      MCPHost.executePrelude req pool now attempt
        = { earlyError := some "Prompt é obrigatório", pool := pool, connectTrace := [] }) ∧
    (∀ p : String, req.prompt = some p → p ≠ "" → req.apiKey = none →
      MCPHost.executePrelude req pool now attempt
        = { earlyError := some "API Key da OpenAI é obrigatória", pool := pool,
            connectTrace := [] }) := by
  constructor
  · intro hp
    simp [MCPHost.executePrelude, hp, jsTruthyStr]
  · intro p hp hpne ha
    simp [MCPHost.executePrelude, hp, hpne, ha, jsTruthyStr]

/-- Claim C10, witness: a request carrying an `apiKey` but no `prompt`
against a non-empty pool leaves the pool intact with no connect. -/
theorem C10_witness :
    MCPHost.executePrelude ⟨none, some "k", none, none, none⟩
        [("old_key", ⟨true, 7⟩)] 99 (fun _ => Except.ok ())
      = { earlyError := some "Prompt é obrigatório",
          pool := [("old_key", ⟨true, 7⟩)], connectTrace := [] } :=
  (C10_validation_leaves_pool_unchanged ⟨none, some "k", none, none, none⟩
    [("old_key", ⟨true, 7⟩)] 99 (fun _ => Except.ok ())).1 rfl
